import Mathlib

/-!
Verification of the Gaussian-process example scripts
(examples/gaussian_processes/basic_regression2.py and
examples/gaussian_processes/basic_dgp.py) through a shallow embedding.

Arrays become total functions on Fin types, scalars become rationals, and
the external numerical collaborators (jnp.linalg.cholesky, jax.nn.softplus,
jax.random.normal, jax.random.split, the univariate Gaussian log density)
are abstracted as explicit function parameters; in JAX all of them are pure
deterministic functions of their inputs, so passing them as functions is a
faithful rendering.  Modules of the repository that the scripts import but
that are not present under src (kernels, distributions, gaussian_processes,
inducing_variables) are modelled from the spec where a claim needs them;
every such definition says so in its doc comment.
-/

namespace FlaxGP

/-- PRNG keys are opaque deterministic values; the embedding represents them
by natural numbers. -/
abbrev PRNGKey := ℕ

/-- Embedding of the helper diag_shift of basic_regression2.py (source name
with a leading underscore): returns a new matrix equal to mat except that
val is added to every diagonal entry, a functional jax ops.index_update at
the diagonal indices.  The input matrix is never mutated: jax arrays are
immutable and index_update returns a fresh array, so the embedding is a
pure function of mat. -/
def diag_shift {n : ℕ} (mat : Matrix (Fin n) (Fin n) ℚ) (val : ℚ) :
    Matrix (Fin n) (Fin n) ℚ :=
  fun i j => if i = j then mat i j + val else mat i j

/-- The TriL-parameterized multivariate normal of the distributions module:
a mean vector and a lower-triangular scale matrix. -/
structure MultivariateNormalTriL (n : ℕ) where
  mean : Fin n → ℚ
  scale : Matrix (Fin n) (Fin n) ℚ

/-- The full-covariance multivariate normal of the distributions module. -/
structure MultivariateNormalFull (n : ℕ) where
  mean : Fin n → ℚ
  covariance : Matrix (Fin n) (Fin n) ℚ

/-- The diagonal multivariate normal of the distributions module, with a
leading batch axis of size b as produced by LikelihoodProvider in
basic_dgp.py (batch of the 17 reparameterized samples). -/
structure BatchedMultivariateNormalDiag (b n : ℕ) where
  mean : Fin b → Fin n → ℚ
  scale_diag : Fin b → Fin n → ℚ

/-- A TriL multivariate normal with a leading batch axis of size b: the
marginal of a deep-GP layer whose index points carry a batch of samples. -/
structure BatchedMultivariateNormalTriL (b n : ℕ) where
  mean : Fin b → Fin n → ℚ
  scale : Fin b → Matrix (Fin n) (Fin n) ℚ

/-- Embedding of GaussianProcessLayer.apply of basic_regression2.py.
The external jnp.linalg.cholesky is passed in as the function cholesky.
A missing mean function defaults to the zero function, the covariance
kernel_fun(index_points) gets jitter added on its diagonal through
diag_shift, and the result is the TriL normal of the mean and the Cholesky
factor of the shifted covariance. -/
def GaussianProcessLayer_apply {n d : ℕ}
    (cholesky : Matrix (Fin n) (Fin n) ℚ → Matrix (Fin n) (Fin n) ℚ)
    (index_points : Fin n → Fin d → ℚ)
    (kernel_fun : (Fin n → Fin d → ℚ) → Matrix (Fin n) (Fin n) ℚ)
    (mean_fun : Option ((Fin n → Fin d → ℚ) → Fin n → ℚ))
    (jitter : ℚ) : MultivariateNormalTriL n :=
  let mf := mean_fun.getD (fun _ _ => 0)
  let mean := mf index_points
  let cov := kernel_fun index_points
  let cov2 := diag_shift cov jitter
  ⟨mean, cholesky cov2⟩

/-- Embedding of MarginalObservationModel.apply of basic_regression2.py.
The stored parameter observation_noise_scale_param is unconstrained and is
passed through the positivity transform softplus (the external
jax.nn.softplus, passed in as a function); the observation covariance is
scale @ scale.T with the squared noise scale added on the diagonal. -/
def MarginalObservationModel_apply {n : ℕ} (softplus : ℚ → ℚ)
    (observation_noise_scale_param : ℚ)
    (pf : MultivariateNormalTriL n) : MultivariateNormalFull n :=
  let obs_noise_scale := softplus observation_noise_scale_param
  let covariance := pf.scale * pf.scale.transpose
  let covariance2 := diag_shift covariance (obs_noise_scale ^ 2)
  ⟨pf.mean, covariance2⟩

/-- Embedding of LikelihoodProvider.apply of basic_dgp.py.  The input x has
shape (b, n, 1); the result is the diagonal normal with mean x[..., 0] and
scale_diag equal to ones(x.shape[:-1]) times the softplus-transformed
unconstrained stored parameter. -/
def LikelihoodProvider_apply {b n : ℕ} (softplus : ℚ → ℚ)
    (observation_noise_scale_param : ℚ)
    (x : Fin b → Fin n → Fin 1 → ℚ) : BatchedMultivariateNormalDiag b n :=
  let obs_noise_scale := softplus observation_noise_scale_param
  ⟨fun s i => x s i 0, fun _ _ => 1 * obs_noise_scale⟩

/-- Modelled from the spec: the distributions module is not under src.
Following spec section 4.2, sample(key, shape) is
mean + scale · standard_normal(shape + [n]), a deterministic function of
the key; the pure jax standard-normal draw of shape (17, n) at a key is
passed in as the function normalFn.  This is the unbatched form, used for
the first deep-GP layer. -/
def MultivariateNormalTriL.sample {n : ℕ} (d : MultivariateNormalTriL n)
    (normalFn : PRNGKey → Fin 17 → Fin n → ℚ) (key : PRNGKey) :
    Fin 17 → Fin n → ℚ :=
  fun s i => d.mean i + ∑ j, d.scale i j * normalFn key s j

/-- Modelled from the spec: the distributions module is not under src.
The batched form of the reparameterized sample, for a marginal whose batch
axis carries the 17 samples of the previous layer. -/
def BatchedMultivariateNormalTriL.sample {n : ℕ}
    (d : BatchedMultivariateNormalTriL 17 n)
    (normalFn : PRNGKey → Fin 17 → Fin n → ℚ) (key : PRNGKey) :
    Fin 17 → Fin n → ℚ :=
  fun s i => d.mean s i + ∑ j, d.scale s i j * normalFn key s j

/-- Interface of the layer-1 variational GP built by SVGPProvider in
basic_dgp.py: a marginal distribution over the n index points and a scalar
prior KL term.  The SVGP internals live in the gaussian_processes and
inducing_variables modules, which are not under src, so the provider is
kept abstract and only this interface is embedded. -/
structure SVGPLayer1 (n : ℕ) where
  marginal : MultivariateNormalTriL n
  prior_kl : ℚ

/-- Interface of the layer-2 variational GP: its index points carry the
batch of 17 samples, so its marginal is batched. -/
structure SVGPLayer2 (n : ℕ) where
  marginal : BatchedMultivariateNormalTriL 17 n
  prior_kl : ℚ

/-- Result of one forward evaluation of DeepGPModel.apply of basic_dgp.py,
with trace fields recording what the loop handed to each layer: the mean
function supplied to each SVGPProvider call, the key given to each sample
call, the index points consumed by layer 2, and the final sampled output
fed to LikelihoodProvider. -/
structure DeepGPResult (n : ℕ) where
  mf1 : (Fin n → Fin 1 → ℚ) → Fin n → ℚ
  key1 : PRNGKey
  vgp1 : SVGPLayer1 n
  layer2_input : Fin 17 → Fin n → Fin 1 → ℚ
  mf2 : (Fin 17 → Fin n → Fin 1 → ℚ) → Fin 17 → Fin n → ℚ
  key2 : PRNGKey
  vgp2 : SVGPLayer2 n
  xOut : Fin 17 → Fin n → Fin 1 → ℚ
  loglik : BatchedMultivariateNormalDiag 17 n

/-- Embedding of DeepGPModel.apply of basic_dgp.py with its
range(1, 3) layer loop unrolled (the loop bound is the literal 3 in the
source, so exactly the two iterations layer = 1, 2 occur).  provider1 and
provider2 stand for the SVGPProvider calls, abstracted over the kernel and
inducing-variable construction but applied, as in the source, to the
current index points and the current mean function mf.  The loop starts
with mf as the zero function, samples each marginal at sample_key with
shape (17,) and appends a trailing singleton axis, and resets mf to the
function reading feature 0 after the first iteration. -/
def DeepGPModel_apply {n : ℕ}
    (normalFn : PRNGKey → Fin 17 → Fin n → ℚ)
    (provider1 : (Fin n → Fin 1 → ℚ) →
      ((Fin n → Fin 1 → ℚ) → Fin n → ℚ) → SVGPLayer1 n)
    (provider2 : (Fin 17 → Fin n → Fin 1 → ℚ) →
      ((Fin 17 → Fin n → Fin 1 → ℚ) → Fin 17 → Fin n → ℚ) → SVGPLayer2 n)
    (softplus : ℚ → ℚ) (observation_noise_scale_param : ℚ)
    (x : Fin n → Fin 1 → ℚ) (sample_key : PRNGKey) : DeepGPResult n :=
  let mf1 : (Fin n → Fin 1 → ℚ) → Fin n → ℚ := fun _x_ => fun _ => 0
  let vgp1 := provider1 x mf1
  let x1 : Fin 17 → Fin n → Fin 1 → ℚ :=
    fun s i _ => vgp1.marginal.sample normalFn sample_key s i
  let mf2 : (Fin 17 → Fin n → Fin 1 → ℚ) → Fin 17 → Fin n → ℚ :=
    fun x_ => fun s i => x_ s i 0
  let vgp2 := provider2 x1 mf2
  let x2 : Fin 17 → Fin n → Fin 1 → ℚ :=
    fun s i _ => vgp2.marginal.sample normalFn sample_key s i
  let loglik := LikelihoodProvider_apply softplus
    observation_noise_scale_param x2
  ⟨mf1, sample_key, vgp1, x1, mf2, sample_key, vgp2, x2, loglik⟩

/-- Modelled from the spec: the distributions module is not under src.
Following spec sections 4.2 and 4.5, log_prob of the batched diagonal
observation distribution approximates the expected log likelihood
E_q[log p(y | f_L)] by averaging, over the b reparameterized samples, the
sum over coordinates of the univariate Gaussian log density; the external
univariate log density log N(y; mu, sigma) is passed in as gaussLogPdf. -/
def BatchedMultivariateNormalDiag.log_prob {b n : ℕ}
    (d : BatchedMultivariateNormalDiag b n)
    (gaussLogPdf : ℚ → ℚ → ℚ → ℚ) (y : Fin n → ℚ) : ℚ :=
  (∑ s, ∑ i, gaussLogPdf (d.mean s i) (d.scale_diag s i) (y i)) / (b : ℚ)

/-- Embedding of the loss function inside train_step of basic_dgp.py:
the model forward pass yields the observation distribution ell and the
dict of variational GPs; the loss is minus ell.log_prob(y) plus the sum of
the prior_kl values of the variational GPs. -/
def train_step_loss {n : ℕ}
    (normalFn : PRNGKey → Fin 17 → Fin n → ℚ)
    (provider1 : (Fin n → Fin 1 → ℚ) →
      ((Fin n → Fin 1 → ℚ) → Fin n → ℚ) → SVGPLayer1 n)
    (provider2 : (Fin 17 → Fin n → Fin 1 → ℚ) →
      ((Fin 17 → Fin n → Fin 1 → ℚ) → Fin 17 → Fin n → ℚ) → SVGPLayer2 n)
    (softplus : ℚ → ℚ) (observation_noise_scale_param : ℚ)
    (gaussLogPdf : ℚ → ℚ → ℚ → ℚ)
    (index_points : Fin n → Fin 1 → ℚ) (y : Fin n → ℚ)
    (sample_key : PRNGKey) : ℚ :=
  let r := DeepGPModel_apply normalFn provider1 provider2 softplus
    observation_noise_scale_param index_points sample_key
  let prior_kl := r.vgp1.prior_kl + r.vgp2.prior_kl;
  -(r.loglik.log_prob gaussLogPdf y) + prior_kl

/-- The fixed seed of the training loop of basic_dgp.py:
rng = random.PRNGKey(1). -/
def train_seed : ℕ := 1

/-- State of the training loop of basic_dgp.py after a number of epochs:
the optimizer state paired with the current sample_key.  Before any epoch
the optimizer holds the freshly created model and the sample_key is the
key produced by nn.make_rng() inside the nn.stochastic(rng) block (the
deterministic derivation make_rng from the fixed seed).  Each epoch first
replaces sample_key by the second output of random.split applied to the
previous sample_key, then runs the jitted train_step (abstracted as the
pure function step from optimizer state, dataset and key to new optimizer
state and loss).  random.split is the external deterministic jax splitting
function, passed in as split. -/
def train_state {St DS : Type}
    (split : PRNGKey → PRNGKey × PRNGKey) (make_rng : ℕ → PRNGKey)
    (step : St → DS → PRNGKey → St × ℚ) (init : St) (ds : DS) :
    ℕ → St × PRNGKey
  | 0 => (init, make_rng train_seed)
  | e + 1 =>
    let prev := train_state split make_rng step init ds e
    let key := (split prev.2).2
    ((step prev.1 ds key).1, key)

/-- The loss logged at epoch e + 1 of the training loop of basic_dgp.py:
the metrics value returned by train_step at the state after e epochs, run
with the freshly split sample key. -/
def train_loss_at {St DS : Type}
    (split : PRNGKey → PRNGKey × PRNGKey) (make_rng : ℕ → PRNGKey)
    (step : St → DS → PRNGKey → St × ℚ) (init : St) (ds : DS)
    (e : ℕ) : ℚ :=
  let prev := train_state split make_rng step init ds e
  (step prev.1 ds ((split prev.2).2)).2

/-- Embedding of step_fun of basic_dgp.py: minus one when x is not
positive, one otherwise. -/
def step_fun (x : ℚ) : ℚ := if x ≤ 0 then -1 else 1

/-- Embedding of jnp.linspace(a, b, num): num evenly spaced points from a
to b inclusive. -/
def linspace (a b : ℚ) (num : ℕ) : Fin num → ℚ :=
  fun k => a + (b - a) * k / ((num : ℚ) - 1)

/-- The index points built by get_datasets of basic_dgp.py:
jnp.linspace(-1.5, 1.5, 25). -/
def get_datasets_index_points : Fin 25 → ℚ := linspace (-(3/2)) (3/2) 25

/-- The targets built by get_datasets of basic_dgp.py: step_fun applied to
each index point plus 0.1 times a standard-normal draw.  The draws at the
fixed key PRNGKey(123) are a fixed deterministic vector, passed in as
noise. -/
def get_datasets_y (noise : Fin 25 → ℚ) : Fin 25 → ℚ :=
  fun i => step_fun (get_datasets_index_points i) + (1/10) * noise i

/-- The mathematical sign function the claim about get_datasets refers to,
written from the wording of the spec (sign(index_points)); jnp.sign also
maps 0 to 0.  This definition follows the spec, not the source, and exists
only to be compared with step_fun. -/
def spec_sign (x : ℚ) : ℚ := if x < 0 then -1 else if x = 0 then 0 else 1

/-- Message of the AttributeError re-raised by MeanShiftDistribution.apply
of basic_regression2.py (the source formats the offending object into the
message; the embedding keeps the fixed suffix). -/
def mean_field_error_msg : String := "must have a mean field."

/-- A value passed to MeanShiftDistribution.apply of basic_regression2.py:
either a dataclass carrying a mean field, as every distribution of the
MultivariateNormal family does (represented here by the TriL variant the
surrounding script produces), or any object without a mean attribute, on
which the attempted attribute access raises AttributeError. -/
inductive PyMeanValue (n : ℕ) where
  | triL (d : MultivariateNormalTriL n)
  | noMeanField

/-- Embedding of MeanShiftDistribution.apply of basic_regression2.py.  The
source attempts p.replace(mean = p.mean + shift) at call time and catches
the AttributeError raised by objects without a mean field, re-raising it
with an explanatory message: success yields a new object of the same type
with the mean shifted, failure is a runtime error value.  The function is
total on all values, so no construction-time capability check restricts
its argument. -/
def MeanShiftDistribution_apply {n : ℕ} (p : PyMeanValue n)
    (shift : Fin n → ℚ) : Except String (PyMeanValue n) :=
  match p with
  | .triL d => .ok (.triL ⟨fun i => d.mean i + shift i, d.scale⟩)
  | .noMeanField => .error mean_field_error_msg

/-- Claim C9: for every square matrix mat and scalar val, diag_shift
returns a matrix whose off-diagonal entries equal those of mat and whose
diagonal entries equal those of mat plus val; the input is a pure value
that the call does not modify (jax index_update returns a fresh array and
the embedding is a pure function of mat). -/
theorem C9_diag_shift_spec {n : ℕ} (mat : Matrix (Fin n) (Fin n) ℚ)
    (val : ℚ) (i j : Fin n) (hij : i ≠ j) :
    diag_shift mat val i j = mat i j ∧
    diag_shift mat val j j = mat j j + val := by
  constructor
  · simp [diag_shift, hij]
  · simp [diag_shift]

theorem C9_diag_shift_spec_witness :
    diag_shift (fun _ _ => (5 : ℚ) : Matrix (Fin 2) (Fin 2) ℚ) 3 0 1 = 5 ∧
    diag_shift (fun _ _ => (5 : ℚ) : Matrix (Fin 2) (Fin 2) ℚ) 3 1 1 = 5 + 3 :=
  C9_diag_shift_spec (fun _ _ => (5 : ℚ)) 3 0 1 (by decide)

/-- Claim C4: GaussianProcessLayer.apply returns the TriL normal whose
mean is mean_fun(index_points) and whose scale is the Cholesky factor of
kernel_fun(index_points) with jitter added to the diagonal, and the matrix
handed to the Cholesky factorization carries the jitter on every diagonal
entry. -/
theorem C4_gp_layer_jitter_before_cholesky {n d : ℕ}
    (cholesky : Matrix (Fin n) (Fin n) ℚ → Matrix (Fin n) (Fin n) ℚ)
    (index_points : Fin n → Fin d → ℚ)
    (kernel_fun : (Fin n → Fin d → ℚ) → Matrix (Fin n) (Fin n) ℚ)
    (mean_fun : (Fin n → Fin d → ℚ) → Fin n → ℚ) (jitter : ℚ) :
    (GaussianProcessLayer_apply cholesky index_points kernel_fun
        (some mean_fun) jitter).mean = mean_fun index_points ∧
    (GaussianProcessLayer_apply cholesky index_points kernel_fun
        (some mean_fun) jitter).scale =
      cholesky (diag_shift (kernel_fun index_points) jitter) ∧
    ∀ i, diag_shift (kernel_fun index_points) jitter i i =
      kernel_fun index_points i i + jitter := by
  refine ⟨rfl, rfl, fun i => ?_⟩
  simp [diag_shift]

/-- Claim C5: MarginalObservationModel.apply keeps the latent mean and
produces the full covariance scale·scaleᵀ with the squared softplus noise
scale added to each diagonal entry, and LikelihoodProvider.apply produces
the diagonal normal centred on the single latent feature with constant
scale equal to the softplus noise scale; both noise scales come from an
unconstrained stored parameter through the softplus transform. -/
theorem C5_observation_models {n b : ℕ} (softplus : ℚ → ℚ)
    (theta1 theta2 : ℚ) (pf : MultivariateNormalTriL n)
    (x : Fin b → Fin n → Fin 1 → ℚ) :
    (MarginalObservationModel_apply softplus theta1 pf).mean = pf.mean ∧
    (∀ i j,
      (MarginalObservationModel_apply softplus theta1 pf).covariance i j =
        (∑ k, pf.scale i k * pf.scale j k) +
          if i = j then (softplus theta1) ^ 2 else 0) ∧
    (∀ s i,
      (LikelihoodProvider_apply softplus theta2 x).mean s i = x s i 0) ∧
    (∀ s i,
      (LikelihoodProvider_apply softplus theta2 x).scale_diag s i =
        softplus theta2) := by
  refine ⟨rfl, fun i j => ?_, fun s i => rfl, fun s i => one_mul _⟩
  by_cases h : i = j <;>
    simp [MarginalObservationModel_apply, diag_shift, Matrix.mul_apply,
      Matrix.transpose_apply, h]

/-- Claim C2: in DeepGPModel.apply the mean function supplied to the first
layer maps any index-point array to the zero vector over the leading axes,
and the mean function supplied to the layer after the first is the
identity on the single feature of the previous layer sample, mapping x to
x[..., 0]. -/
theorem C2_deep_gp_mean_functions {n : ℕ}
    (normalFn : PRNGKey → Fin 17 → Fin n → ℚ)
    (provider1 : (Fin n → Fin 1 → ℚ) →
      ((Fin n → Fin 1 → ℚ) → Fin n → ℚ) → SVGPLayer1 n)
    (provider2 : (Fin 17 → Fin n → Fin 1 → ℚ) →
      ((Fin 17 → Fin n → Fin 1 → ℚ) → Fin 17 → Fin n → ℚ) → SVGPLayer2 n)
    (softplus : ℚ → ℚ) (param : ℚ)
    (x : Fin n → Fin 1 → ℚ) (sample_key : PRNGKey) :
    (∀ x_ i, (DeepGPModel_apply normalFn provider1 provider2 softplus
      param x sample_key).mf1 x_ i = 0) ∧
    (∀ x_ s i, (DeepGPModel_apply normalFn provider1 provider2 softplus
      param x sample_key).mf2 x_ s i = x_ s i 0) :=
  ⟨fun _ _ => rfl, fun _ _ _ => rfl⟩

/-- Claim C3: in DeepGPModel.apply the layer after the first consumes as
its index points the reparameterized sample of the marginal of the first
layer, drawn at the supplied sample_key with sample shape (17,) and a
trailing singleton feature axis appended; the sample equals the mean plus
scale times the standard-normal draw at the key, so it is a deterministic
affine function of the key through the pure normalFn. -/
theorem C3_layer2_consumes_reparameterized_sample {n : ℕ}
    (normalFn : PRNGKey → Fin 17 → Fin n → ℚ)
    (provider1 : (Fin n → Fin 1 → ℚ) →
      ((Fin n → Fin 1 → ℚ) → Fin n → ℚ) → SVGPLayer1 n)
    (provider2 : (Fin 17 → Fin n → Fin 1 → ℚ) →
      ((Fin 17 → Fin n → Fin 1 → ℚ) → Fin 17 → Fin n → ℚ) → SVGPLayer2 n)
    (softplus : ℚ → ℚ) (param : ℚ)
    (x : Fin n → Fin 1 → ℚ) (sample_key : PRNGKey) :
    ((DeepGPModel_apply normalFn provider1 provider2 softplus param x
        sample_key).layer2_input =
      fun s i _ => (DeepGPModel_apply normalFn provider1 provider2 softplus
        param x sample_key).vgp1.marginal.sample normalFn sample_key s i) ∧
    ((DeepGPModel_apply normalFn provider1 provider2 softplus param x
        sample_key).layer2_input =
      fun s i _ => (DeepGPModel_apply normalFn provider1 provider2 softplus
          param x sample_key).vgp1.marginal.mean i +
        ∑ j, (DeepGPModel_apply normalFn provider1 provider2 softplus
          param x sample_key).vgp1.marginal.scale i j *
            normalFn sample_key s j) :=
  ⟨rfl, rfl⟩

/-- Claim C10: within one forward evaluation of DeepGPModel.apply both
layers draw their reparameterized samples with the identical sample_key
value; the key is never split or re-derived between the layers. -/
theorem C10_single_key_per_forward {n : ℕ}
    (normalFn : PRNGKey → Fin 17 → Fin n → ℚ)
    (provider1 : (Fin n → Fin 1 → ℚ) →
      ((Fin n → Fin 1 → ℚ) → Fin n → ℚ) → SVGPLayer1 n)
    (provider2 : (Fin 17 → Fin n → Fin 1 → ℚ) →
      ((Fin 17 → Fin n → Fin 1 → ℚ) → Fin 17 → Fin n → ℚ) → SVGPLayer2 n)
    (softplus : ℚ → ℚ) (param : ℚ)
    (x : Fin n → Fin 1 → ℚ) (sample_key : PRNGKey) :
    (DeepGPModel_apply normalFn provider1 provider2 softplus param x
      sample_key).key1 = sample_key ∧
    (DeepGPModel_apply normalFn provider1 provider2 softplus param x
      sample_key).key2 = sample_key :=
  ⟨rfl, rfl⟩

/-- Claim C1: the loss of train_step equals the negative ELBO — minus the
sample-approximated expected log likelihood of y under the final layer
observation distribution (averaged over the S = 17 reparameterized
samples) plus the sum over the layers of the prior_kl terms of their
variational GPs — and the value lives in the scalar type. -/
theorem C1_train_step_loss_is_negative_elbo {n : ℕ}
    (normalFn : PRNGKey → Fin 17 → Fin n → ℚ)
    (provider1 : (Fin n → Fin 1 → ℚ) →
      ((Fin n → Fin 1 → ℚ) → Fin n → ℚ) → SVGPLayer1 n)
    (provider2 : (Fin 17 → Fin n → Fin 1 → ℚ) →
      ((Fin 17 → Fin n → Fin 1 → ℚ) → Fin 17 → Fin n → ℚ) → SVGPLayer2 n)
    (softplus : ℚ → ℚ) (param : ℚ) (gaussLogPdf : ℚ → ℚ → ℚ → ℚ)
    (index_points : Fin n → Fin 1 → ℚ) (y : Fin n → ℚ)
    (sample_key : PRNGKey) :
    train_step_loss normalFn provider1 provider2 softplus param gaussLogPdf
        index_points y sample_key =
      -((∑ s : Fin 17, ∑ i, gaussLogPdf
          ((DeepGPModel_apply normalFn provider1 provider2 softplus param
            index_points sample_key).xOut s i 0)
          (softplus param) (y i)) / (17 : ℚ)) +
        ((DeepGPModel_apply normalFn provider1 provider2 softplus param
            index_points sample_key).vgp1.prior_kl +
          (DeepGPModel_apply normalFn provider1 provider2 softplus param
            index_points sample_key).vgp2.prior_kl) := by
  simp [train_step_loss, BatchedMultivariateNormalDiag.log_prob,
    DeepGPModel_apply, LikelihoodProvider_apply]

/-- Claim C6 counterexample: MeanShiftDistribution.apply accepts every
value at call time and, on the concrete input without a mean field,
returns a runtime error produced by attempting the attribute update and
catching the resulting exception; no construction-time capability check
rejects the input, contradicting the claimed tagged-variant dispatch. -/
theorem C6_counterexample :
    MeanShiftDistribution_apply (PyMeanValue.noMeanField : PyMeanValue 1)
      (fun _ => 1) = Except.error mean_field_error_msg := rfl

/-- Claim C6 amended: mean shifting is duck-typed at runtime —
MeanShiftDistribution.apply attempts the attribute update
p.replace(mean = p.mean + shift); on a distribution with a mean field it
returns a new value of the same type with the mean shifted, and on a value
without one it catches the AttributeError and re-raises it as a runtime
error. -/
theorem C6_mean_shift_runtime_dispatch {n : ℕ}
    (d : MultivariateNormalTriL n) (shift : Fin n → ℚ) :
    MeanShiftDistribution_apply (PyMeanValue.triL d) shift =
      Except.ok (PyMeanValue.triL ⟨fun i => d.mean i + shift i, d.scale⟩) ∧
    MeanShiftDistribution_apply (PyMeanValue.noMeanField : PyMeanValue n)
      shift = Except.error mean_field_error_msg :=
  ⟨rfl, rfl⟩

/-- Claim C7 counterexample: the 13th index point of get_datasets is
x = 0, where the target is step_fun(0) + noise = -1 + noise while
sign(0) + noise = noise; evaluated at the zero noise vector the two
differ, so y does not equal sign(index_points) plus the noise at every
index point. -/
theorem C7_counterexample :
    get_datasets_index_points ⟨12, by norm_num⟩ = 0 ∧
    get_datasets_y (fun _ => 0) ⟨12, by norm_num⟩ = -1 ∧
    spec_sign (get_datasets_index_points ⟨12, by norm_num⟩) +
      (1/10) * (0 : ℚ) = 0 ∧
    get_datasets_y (fun _ => 0) ⟨12, by norm_num⟩ ≠
      spec_sign (get_datasets_index_points ⟨12, by norm_num⟩) +
        (1/10) * (0 : ℚ) := by
  have h0 : get_datasets_index_points ⟨12, by norm_num⟩ = 0 := by
    norm_num [get_datasets_index_points, linspace]
  refine ⟨h0, ?_, ?_, ?_⟩ <;>
    norm_num [get_datasets_y, h0, step_fun, spec_sign]

/-- Claim C7 amended: the dataset consists of 25 evenly spaced index
points from -1.5 to 1.5 in steps of 1/8, with targets
y = step_fun(index_points) + 0.1 · noise, where step_fun is -1 on
nonpositive inputs and 1 otherwise; at every index point other than
x = 0 this coincides with sign(index_points) plus the noise. -/
theorem C7_amended_step_targets (noise : Fin 25 → ℚ) (i : Fin 25)
    (h : get_datasets_index_points i ≠ 0) :
    get_datasets_index_points i = -(3/2) + (i : ℚ) * (1/8) ∧
    get_datasets_y noise i =
      step_fun (get_datasets_index_points i) + (1/10) * noise i ∧
    step_fun (get_datasets_index_points i) =
      spec_sign (get_datasets_index_points i) := by
  refine ⟨?_, rfl, ?_⟩
  · show -(3/2) + ((3:ℚ)/2 - -(3/2)) * (i : ℚ) / ((25 : ℚ) - 1) = _
    ring
  · rcases lt_trichotomy (get_datasets_index_points i) 0 with hlt | heq | hgt
    · simp [step_fun, spec_sign, hlt, le_of_lt hlt]
    · exact absurd heq h
    · simp [step_fun, spec_sign, not_le.mpr hgt, hgt.ne.symm,
        asymm hgt]

theorem C7_amended_step_targets_witness :
    get_datasets_index_points ⟨0, by norm_num⟩ =
      -(3/2) + ((⟨0, by norm_num⟩ : Fin 25) : ℚ) * (1/8) ∧
    get_datasets_y (fun _ => 0) ⟨0, by norm_num⟩ =
      step_fun (get_datasets_index_points ⟨0, by norm_num⟩) +
        (1/10) * (0 : ℚ) ∧
    step_fun (get_datasets_index_points ⟨0, by norm_num⟩) =
      spec_sign (get_datasets_index_points ⟨0, by norm_num⟩) :=
  C7_amended_step_targets (fun _ => 0) ⟨0, by norm_num⟩
    (by norm_num [get_datasets_index_points, linspace])

/-- Claim C8: every sample key of the training loop is an explicit value
derived deterministically from the fixed seed 1 — the initial key is
make_rng of the seed and each epoch key is the second output of splitting
the previous epoch key — and the loop is a pure function of the dataset
and these keys, so two runs of train on the same dataset log identical
per-epoch loss values. -/
theorem C8_training_determinism {St DS : Type}
    (split : PRNGKey → PRNGKey × PRNGKey) (make_rng : ℕ → PRNGKey)
    (step : St → DS → PRNGKey → St × ℚ) (init : St) (ds1 ds2 : DS)
    (h : ds1 = ds2) (e : ℕ) :
    (train_state split make_rng step init ds1 0).2 = make_rng train_seed ∧
    (train_state split make_rng step init ds1 (e + 1)).2 =
      (split (train_state split make_rng step init ds1 e).2).2 ∧
    train_loss_at split make_rng step init ds1 e =
      train_loss_at split make_rng step init ds2 e := by
  subst h
  exact ⟨rfl, rfl, rfl⟩

theorem C8_training_determinism_witness :
    (train_state (fun k => (k, k + 1)) id
      (fun s d k => (s + d + k, ((s + d + k : ℕ) : ℚ))) 0 5 0).2 =
        id train_seed ∧
    (train_state (fun k => (k, k + 1)) id
      (fun s d k => (s + d + k, ((s + d + k : ℕ) : ℚ))) 0 5 (2 + 1)).2 =
      ((fun k => (k, k + 1))
        (train_state (fun k => (k, k + 1)) id
          (fun s d k => (s + d + k, ((s + d + k : ℕ) : ℚ))) 0 5 2).2).2 ∧
    train_loss_at (fun k => (k, k + 1)) id
        (fun s d k => (s + d + k, ((s + d + k : ℕ) : ℚ))) 0 5 2 =
      train_loss_at (fun k => (k, k + 1)) id
        (fun s d k => (s + d + k, ((s + d + k : ℕ) : ℚ))) 0 5 2 :=
  C8_training_determinism (fun k => (k, k + 1)) id
    (fun s d k => (s + d + k, ((s + d + k : ℕ) : ℚ))) 0 5 5 rfl 2

end FlaxGP
